import Mathlib

/-!
Shallow embedding of `custom_components/mypyllant/fan.py` from the
mypyllant-component repository: a Home Assistant fan entity adapter for the
ventilation unit of a heating system.

The adapter's own logic (`async_setup_entry` and the `VentilationFan` class)
is translated directly from the source.  Two collaborators are not part of
the source tree and are modelled from the spec where noted:
the `VentilationOperationMode` enum (from the myPyllant library) and the
`ordered_list_item_to_percentage` / `percentage_to_ordered_list_item`
helpers (from `homeassistant.util.percentage`).

Python exceptions are modelled by `Option` results (for property reads) and
by an explicit error field in `CmdResult` (for commands); the sequence of
remote API calls a command issues is recorded as a list of `ApiCall`s.
-/

namespace Mypyllant

/-- Modelled from the spec: the `VentilationOperationMode` enum of the
myPyllant library (not under `src/`).  The spec lists its members as
OFF, TIME_CONTROLLED, REDUCED and NORMAL. -/
inductive VentilationOperationMode where
  | OFF
  | NORMAL
  | REDUCED
  | TIME_CONTROLLED
deriving DecidableEq, Repr

/-- Modelled from the spec: the string value of an enum member, as produced
by Python's `str(mode)` (the library's enum stringifies to its value). -/
def VentilationOperationMode.toStr : VentilationOperationMode → String
  | .OFF => "OFF"
  | .NORMAL => "NORMAL"
  | .REDUCED => "REDUCED"
  | .TIME_CONTROLLED => "TIME_CONTROLLED"

/-- Modelled from the spec: constructing an enum member from a string,
`VentilationOperationMode(s)` in Python.  An unrecognized string fails with
an invalid-value error, modelled by `none`. -/
def VentilationOperationMode.ofString (s : String) : Option VentilationOperationMode :=
  if s = "OFF" then some .OFF
  else if s = "NORMAL" then some .NORMAL
  else if s = "REDUCED" then some .REDUCED
  else if s = "TIME_CONTROLLED" then some .TIME_CONTROLLED
  else none

/-- One ventilation sub-device of a system snapshot; only the fields the
claims touch are carried. -/
structure Ventilation where
  index : Nat
  operation_mode_ventilation : VentilationOperationMode
deriving DecidableEq, Repr

/-- One polled system snapshot, with its ordered sequence of ventilation
units. -/
structure System where
  ventilation : List Ventilation
deriving DecidableEq, Repr

/-- Modelled from the spec: the integration's domain constant from
`const.py` (not under `src/`).  No claim depends on its value, only on its
being one shared constant. -/
def DOMAIN : String := "mypyllant"

/-- `FAN_SPEED_OPTIONS = [VentilationOperationMode.REDUCED,
VentilationOperationMode.NORMAL]` from fan.py. -/
def FAN_SPEED_OPTIONS : List VentilationOperationMode :=
  [VentilationOperationMode.REDUCED, VentilationOperationMode.NORMAL]

/-- Modelled from the spec: `homeassistant.util.percentage.
ordered_list_item_to_percentage` (not under `src/`).  Per the spec, the
item's position within the ordered list is mapped onto a percentage scale
by even partition (for [REDUCED, NORMAL]: REDUCED at 50, NORMAL at 100),
and a mode outside the list must fail rather than silently default, so the
result is `none` when the item is absent. -/
def ordered_list_item_to_percentage (l : List VentilationOperationMode)
    (item : VentilationOperationMode) : Option Nat :=
  (List.findIdx? (fun x => x == item) l).map (fun i => ((i + 1) * 100) / l.length)

/-- Modelled from the spec: `homeassistant.util.percentage.
percentage_to_ordered_list_item` (not under `src/`).  Per the spec, a
percentage is inverse-mapped onto the ordered scale to the nearest discrete
step (the item whose even-partition step percentage is closest to the
argument); ties resolve to the earlier item. -/
def percentage_to_ordered_list_item (l : List VentilationOperationMode)
    (p : Int) : Option VentilationOperationMode :=
  (l.enum.foldl
    (fun best iv =>
      let d := (p - ((((iv.1 + 1) * 100) / l.length : Nat) : Int)).natAbs
      match best with
      | none => some (d, iv.2)
      | some b => if d < b.1 then some (d, iv.2) else some b)
    none).map Prod.snd

/-- The `VentilationFan` entity: holds the two integer indices into the
coordinator's current data (the coordinator itself is passed to each
operation as the `data` snapshot list). -/
structure VentilationFan where
  system_index : Nat
  ventilation_index : Nat
deriving DecidableEq, Repr

/-- `async_setup_entry` from fan.py: skips setup when the coordinator holds
no data, otherwise registers one `VentilationFan` per (system, ventilation)
pair of the current snapshot, carrying that pair's indices.  The returned
list is the list of entities passed to `async_add_entities`. -/
def async_setup_entry (data : List System) : List VentilationFan :=
  if data.isEmpty then []
  else
    ((data.enum.map (fun is =>
      is.2.ventilation.enum.map (fun vs => VentilationFan.mk is.1 vs.1)))).flatten

/-- `VentilationFan.system`: `self.coordinator.data[self.system_index]`;
an out-of-range index raises in Python, modelled by `none`. -/
def VentilationFan.system (f : VentilationFan) (data : List System) : Option System :=
  data.get? f.system_index

/-- `VentilationFan.ventilation`:
`self.system.ventilation[self.ventilation_index]`. -/
def VentilationFan.ventilation (f : VentilationFan) (data : List System) :
    Option Ventilation :=
  (f.system data).bind (fun s => s.ventilation.get? f.ventilation_index)

/-- `VentilationFan.unique_id`:
`f"{DOMAIN}_climate_ventilation_{self.ventilation_index}"`. -/
def VentilationFan.unique_id (f : VentilationFan) : String :=
  DOMAIN ++ "_climate_ventilation_" ++ toString f.ventilation_index

/-- `VentilationFan.is_on`:
`self.ventilation.operation_mode_ventilation != VentilationOperationMode.OFF`. -/
def VentilationFan.is_on (f : VentilationFan) (data : List System) : Option Bool :=
  (f.ventilation data).map
    (fun v => v.operation_mode_ventilation != VentilationOperationMode.OFF)

/-- `VentilationFan.percentage`: 100 for TIME_CONTROLLED, 0 for OFF, and
otherwise the mode's place on the `FAN_SPEED_OPTIONS` percentage scale. -/
def VentilationFan.percentage (f : VentilationFan) (data : List System) : Option Nat :=
  (f.ventilation data).bind (fun v =>
    if v.operation_mode_ventilation = VentilationOperationMode.TIME_CONTROLLED then
      some 100
    else if v.operation_mode_ventilation = VentilationOperationMode.OFF then
      some 0
    else
      ordered_list_item_to_percentage FAN_SPEED_OPTIONS
        v.operation_mode_ventilation)

/-- One call to the vendor API's `set_ventilation_operation_mode`. -/
structure ApiCall where
  unit : Ventilation
  mode : VentilationOperationMode
deriving DecidableEq, Repr

/-- Outcome of one command: the remote API calls it issued, and the error it
raised (`none` on success).  On error the `calls` list holds exactly the
calls issued before the error. -/
structure CmdResult where
  calls : List ApiCall
  err : Option String
deriving DecidableEq, Repr

/-- `VentilationFan.async_turn_on`: a falsy `preset_mode` (absent or empty
string) defaults to `str(VentilationOperationMode.TIME_CONTROLLED)`; then
`self.ventilation` is resolved and the enum value constructed from the
string (Python evaluates the call's arguments in that order), and the call
is forwarded to the vendor API. -/
def VentilationFan.async_turn_on (f : VentilationFan) (data : List System)
    (preset_mode : Option String) : CmdResult :=
  let pm : String :=
    match preset_mode with
    | none => VentilationOperationMode.TIME_CONTROLLED.toStr
    | some s => if s = "" then VentilationOperationMode.TIME_CONTROLLED.toStr else s
  match f.ventilation data with
  | none => ⟨[], some "IndexError"⟩
  | some v =>
    match VentilationOperationMode.ofString pm with
    | none => ⟨[], some "ValueError"⟩
    | some m => ⟨[⟨v, m⟩], none⟩

/-- `VentilationFan.async_set_preset_mode`: resolves `self.ventilation`,
constructs the enum value from the given string (failing with an
invalid-value error on an unrecognized string, before any API call), and
forwards the mode to the vendor API. -/
def VentilationFan.async_set_preset_mode (f : VentilationFan) (data : List System)
    (preset_mode : String) : CmdResult :=
  match f.ventilation data with
  | none => ⟨[], some "IndexError"⟩
  | some v =>
    match VentilationOperationMode.ofString preset_mode with
    | none => ⟨[], some "ValueError"⟩
    | some m => ⟨[⟨v, m⟩], none⟩

/-- `VentilationFan.async_set_percentage`: 0 issues OFF; any other value is
inverse-mapped through `percentage_to_ordered_list_item` over
`FAN_SPEED_OPTIONS` and that mode is forwarded. -/
def VentilationFan.async_set_percentage (f : VentilationFan) (data : List System)
    (percentage : Int) : CmdResult :=
  if percentage = 0 then
    match f.ventilation data with
    | none => ⟨[], some "IndexError"⟩
    | some v => ⟨[⟨v, VentilationOperationMode.OFF⟩], none⟩
  else
    match percentage_to_ordered_list_item FAN_SPEED_OPTIONS percentage with
    | none => ⟨[], some "ValueError"⟩
    | some m =>
      match f.ventilation data with
      | none => ⟨[], some "IndexError"⟩
      | some v => ⟨[⟨v, m⟩], none⟩

/-! ## Shared lemmas -/

/-- On the two-step [REDUCED, NORMAL] scale, the inverse map picks REDUCED
exactly when its step 50 is at least as close to the argument as NORMAL's
step 100, and NORMAL otherwise (ties go to the earlier item). -/
theorem percentage_to_nearest (p : Int) :
    percentage_to_ordered_list_item FAN_SPEED_OPTIONS p =
      some (if (p - 50).natAbs ≤ (p - 100).natAbs then VentilationOperationMode.REDUCED
            else VentilationOperationMode.NORMAL) := by
  unfold percentage_to_ordered_list_item FAN_SPEED_OPTIONS
  simp only [List.enum, List.enumFrom, List.foldl, List.length_cons, List.length_nil]
  norm_num
  by_cases h : (p - 100).natAbs < (p - 50).natAbs
  · rw [if_pos h, if_neg (by omega)]
    exact ⟨_, rfl⟩
  · rw [if_neg h, if_pos (by omega)]
    exact ⟨_, rfl⟩

/-- Setup registers an adapter with indices (i, j) exactly when system i
exists in the snapshot and has a ventilation unit at position j. -/
theorem mem_async_setup_entry (data : List System) (i j : Nat) :
    VentilationFan.mk i j ∈ async_setup_entry data ↔
      ∃ s, data.get? i = some s ∧ j < s.ventilation.length := by
  unfold async_setup_entry
  by_cases hd : data.isEmpty
  · rw [if_pos hd]
    rcases data with _ | ⟨a, l⟩
    · simp
    · simp at hd
  · rw [if_neg hd]
    rw [List.mem_flatten]
    constructor
    · rintro ⟨l, hl, hf⟩
      rw [List.mem_map] at hl
      obtain ⟨⟨k, s⟩, hp, rfl⟩ := hl
      rw [List.mem_map] at hf
      obtain ⟨⟨t, w⟩, hq, hfq⟩ := hf
      have hk : data[k]? = some s := List.mk_mem_enum_iff_getElem?.mp hp
      have ht : s.ventilation[t]? = some w := List.mk_mem_enum_iff_getElem?.mp hq
      obtain ⟨hki, htj⟩ : k = i ∧ t = j := by
        injection hfq with h1 h2
        exact ⟨h1, h2⟩
      subst hki
      subst htj
      refine ⟨s, ?_, ?_⟩
      · rw [List.get?_eq_getElem?]
        exact hk
      · rcases List.getElem?_eq_some.mp ht with ⟨hlt, _⟩
        exact hlt
    · rintro ⟨s, hs, hj⟩
      rw [List.get?_eq_getElem?] at hs
      refine ⟨s.ventilation.enum.map (fun vs => VentilationFan.mk i vs.1), ?_, ?_⟩
      · rw [List.mem_map]
        exact ⟨(i, s), List.mk_mem_enum_iff_getElem?.mpr hs, rfl⟩
      · rw [List.mem_map]
        refine ⟨(j, s.ventilation.get ⟨j, hj⟩), ?_, rfl⟩
        exact List.mk_mem_enum_iff_getElem?.mpr (by
          rw [List.getElem?_eq_getElem hj]
          simp [List.get_eq_getElem])

/-- Setup registers as many adapters as there are (system, ventilation)
pairs in the snapshot. -/
theorem length_async_setup_entry (data : List System) :
    (async_setup_entry data).length =
      (data.map (fun s => s.ventilation.length)).sum := by
  unfold async_setup_entry
  by_cases hd : data.isEmpty
  · rw [if_pos hd]
    rcases data with _ | ⟨a, l⟩
    · simp
    · simp at hd
  · rw [if_neg hd]
    rw [List.length_flatten, List.map_map]
    have hc : (List.length ∘ fun is : Nat × System =>
        List.map (fun vs : Nat × Ventilation => VentilationFan.mk is.1 vs.1)
          is.2.ventilation.enum)
        = (fun s : System => s.ventilation.length) ∘ Prod.snd := by
      funext is
      simp
    rw [hc, ← List.map_map, List.enum_map_snd]

/-! ## Claim theorems -/

/-- Claim C1: for every ventilation unit, the `percentage` property returns
100 when the operation mode is TIME_CONTROLLED, 0 when it is OFF, 50 when
it is REDUCED and 100 when it is NORMAL. -/
theorem C1_percentage_values (f : VentilationFan) (data : List System)
    (v : Ventilation) (h : f.ventilation data = some v) :
    f.percentage data =
      some (match v.operation_mode_ventilation with
        | VentilationOperationMode.TIME_CONTROLLED => 100
        | VentilationOperationMode.OFF => 0
        | VentilationOperationMode.REDUCED => 50
        | VentilationOperationMode.NORMAL => 100) := by
  unfold VentilationFan.percentage
  rw [h]
  rcases v with ⟨i, m⟩
  cases m <;> rfl

/-- Witness for C1 at a concrete unit in REDUCED mode. -/
theorem C1_percentage_values_witness :
    (VentilationFan.mk 0 0).percentage
      [System.mk [Ventilation.mk 0 VentilationOperationMode.REDUCED]] = some 50 :=
  C1_percentage_values (VentilationFan.mk 0 0)
    [System.mk [Ventilation.mk 0 VentilationOperationMode.REDUCED]]
    (Ventilation.mk 0 VentilationOperationMode.REDUCED) rfl

/-- Claim C2: `async_set_percentage 0` issues OFF to the vendor API,
`async_set_percentage 100` issues NORMAL, and every other nonzero value
issues the mode of `FAN_SPEED_OPTIONS` whose percentage step (50 for
REDUCED, 100 for NORMAL) is closest to the argument. -/
theorem C2_set_percentage (f : VentilationFan) (data : List System)
    (v : Ventilation) (p : Int) (h : f.ventilation data = some v) :
    f.async_set_percentage data 0 =
      ⟨[⟨v, VentilationOperationMode.OFF⟩], none⟩ ∧
    f.async_set_percentage data 100 =
      ⟨[⟨v, VentilationOperationMode.NORMAL⟩], none⟩ ∧
    (p ≠ 0 →
      f.async_set_percentage data p =
        ⟨[⟨v, if (p - 50).natAbs ≤ (p - 100).natAbs then
                VentilationOperationMode.REDUCED
              else VentilationOperationMode.NORMAL⟩], none⟩) := by
  refine ⟨?_, ?_, fun hp => ?_⟩
  · unfold VentilationFan.async_set_percentage
    rw [if_pos rfl, h]
  · unfold VentilationFan.async_set_percentage
    rw [if_neg (by norm_num), percentage_to_nearest, h]
    norm_num
  · unfold VentilationFan.async_set_percentage
    rw [if_neg hp, percentage_to_nearest, h]

/-- Witness for C2 at a concrete unit and the nonzero argument 60. -/
theorem C2_set_percentage_witness :
    (VentilationFan.mk 0 0).async_set_percentage
        [System.mk [Ventilation.mk 0 VentilationOperationMode.NORMAL]] 60 =
      ⟨[⟨Ventilation.mk 0 VentilationOperationMode.NORMAL,
         VentilationOperationMode.REDUCED⟩], none⟩ :=
  (C2_set_percentage (VentilationFan.mk 0 0)
    [System.mk [Ventilation.mk 0 VentilationOperationMode.NORMAL]]
    (Ventilation.mk 0 VentilationOperationMode.NORMAL) 60 rfl).2.2 (by norm_num)

/-- Claim C3: on the [REDUCED, NORMAL] scale the forward percentages are
50 and 100, strictly increasing with the mode's position, and feeding each
percentage back through `async_set_percentage` issues the same mode again. -/
theorem C3_round_trip (f : VentilationFan) (data : List System)
    (v : Ventilation) (h : f.ventilation data = some v) :
    (∀ a b, ordered_list_item_to_percentage FAN_SPEED_OPTIONS
          VentilationOperationMode.REDUCED = some a →
        ordered_list_item_to_percentage FAN_SPEED_OPTIONS
          VentilationOperationMode.NORMAL = some b →
        a < b) ∧
    (v.operation_mode_ventilation = VentilationOperationMode.REDUCED →
      f.percentage data = some 50 ∧
      f.async_set_percentage data 50 =
        ⟨[⟨v, VentilationOperationMode.REDUCED⟩], none⟩) ∧
    (v.operation_mode_ventilation = VentilationOperationMode.NORMAL →
      f.percentage data = some 100 ∧
      f.async_set_percentage data 100 =
        ⟨[⟨v, VentilationOperationMode.NORMAL⟩], none⟩) := by
  refine ⟨?_, fun hm => ⟨?_, ?_⟩, fun hm => ⟨?_, ?_⟩⟩
  · intro a b ha hb
    rw [show ordered_list_item_to_percentage FAN_SPEED_OPTIONS
          VentilationOperationMode.REDUCED = some 50 by decide] at ha
    rw [show ordered_list_item_to_percentage FAN_SPEED_OPTIONS
          VentilationOperationMode.NORMAL = some 100 by decide] at hb
    injection ha with ha
    injection hb with hb
    omega
  · unfold VentilationFan.percentage
    rw [h]
    simp only [Option.some_bind]
    rw [hm]
    decide
  · unfold VentilationFan.async_set_percentage
    rw [if_neg (by norm_num), percentage_to_nearest, h]
    norm_num
  · unfold VentilationFan.percentage
    rw [h]
    simp only [Option.some_bind]
    rw [hm]
    decide
  · unfold VentilationFan.async_set_percentage
    rw [if_neg (by norm_num), percentage_to_nearest, h]
    norm_num

/-- Witness for C3 at a concrete unit in NORMAL mode. -/
theorem C3_round_trip_witness :
    (VentilationFan.mk 0 0).percentage
        [System.mk [Ventilation.mk 0 VentilationOperationMode.NORMAL]] = some 100 ∧
    (VentilationFan.mk 0 0).async_set_percentage
        [System.mk [Ventilation.mk 0 VentilationOperationMode.NORMAL]] 100 =
      ⟨[⟨Ventilation.mk 0 VentilationOperationMode.NORMAL,
         VentilationOperationMode.NORMAL⟩], none⟩ :=
  (C3_round_trip (VentilationFan.mk 0 0)
    [System.mk [Ventilation.mk 0 VentilationOperationMode.NORMAL]]
    (Ventilation.mk 0 VentilationOperationMode.NORMAL) rfl).2.2 rfl

/-- Claim C4: for every string that is not a member of the enum,
`async_set_preset_mode` fails with the invalid-value error raised while
constructing the enum value and issues no vendor API call. -/
theorem C4_invalid_preset (f : VentilationFan) (data : List System)
    (v : Ventilation) (s : String) (h : f.ventilation data = some v)
    (hs : VentilationOperationMode.ofString s = none) :
    f.async_set_preset_mode data s = ⟨[], some "ValueError"⟩ := by
  unfold VentilationFan.async_set_preset_mode
  rw [h, hs]

/-- Witness for C4 at the concrete string "invalid_value". -/
theorem C4_invalid_preset_witness :
    (VentilationFan.mk 0 0).async_set_preset_mode
        [System.mk [Ventilation.mk 0 VentilationOperationMode.NORMAL]]
        "invalid_value" = ⟨[], some "ValueError"⟩ :=
  C4_invalid_preset _ _ _ _ rfl (by decide)

/-- Claim C5: `is_on` is false if and only if the unit's operation mode is
OFF, and true for every other defined mode (TIME_CONTROLLED included). -/
theorem C5_is_on_iff (f : VentilationFan) (data : List System)
    (v : Ventilation) (h : f.ventilation data = some v) :
    (f.is_on data = some false ↔
      v.operation_mode_ventilation = VentilationOperationMode.OFF) ∧
    (f.is_on data = some true ↔
      v.operation_mode_ventilation ≠ VentilationOperationMode.OFF) := by
  unfold VentilationFan.is_on
  rw [h]
  rcases v with ⟨i, m⟩
  cases m <;> simp

/-- Witness for C5 at a concrete unit in TIME_CONTROLLED mode. -/
theorem C5_is_on_iff_witness :
    (VentilationFan.mk 0 0).is_on
      [System.mk [Ventilation.mk 0 VentilationOperationMode.TIME_CONTROLLED]] =
      some true :=
  ((C5_is_on_iff (VentilationFan.mk 0 0)
    [System.mk [Ventilation.mk 0 VentilationOperationMode.TIME_CONTROLLED]]
    (Ventilation.mk 0 VentilationOperationMode.TIME_CONTROLLED) rfl).2).mpr
    (by decide)

/-- Claim C6: `async_turn_on` with no preset mode given forwards
TIME_CONTROLLED to the vendor API for the adapter's own unit. -/
theorem C6_turn_on_default (f : VentilationFan) (data : List System)
    (v : Ventilation) (h : f.ventilation data = some v) :
    f.async_turn_on data none =
      ⟨[⟨v, VentilationOperationMode.TIME_CONTROLLED⟩], none⟩ := by
  unfold VentilationFan.async_turn_on
  rw [h]
  rfl

/-- Witness for C6 at a concrete unit. -/
theorem C6_turn_on_default_witness :
    (VentilationFan.mk 0 0).async_turn_on
        [System.mk [Ventilation.mk 0 VentilationOperationMode.OFF]] none =
      ⟨[⟨Ventilation.mk 0 VentilationOperationMode.OFF,
         VentilationOperationMode.TIME_CONTROLLED⟩], none⟩ :=
  C6_turn_on_default (VentilationFan.mk 0 0)
    [System.mk [Ventilation.mk 0 VentilationOperationMode.OFF]]
    (Ventilation.mk 0 VentilationOperationMode.OFF) rfl

/-- Claim C7: when the coordinator holds zero system snapshots, setup
registers zero entities (the routine is total, so it returns rather than
raising). -/
theorem C7_setup_empty : async_setup_entry [] = [] := rfl

/-- Claim C8: setup registers exactly one adapter per (system, ventilation)
pair of the snapshot, holding that pair's indices: the entity count equals
the pair count and an adapter (i, j) is registered exactly when system i
has a unit at position j.  In particular, for one system with two units,
the second adapter's `async_turn_on` with no preset sends TIME_CONTROLLED
for the unit at ventilation index 1, not index 0. -/
theorem C8_one_adapter_per_pair :
    (∀ data : List System,
      (async_setup_entry data).length =
        (data.map (fun s => s.ventilation.length)).sum) ∧
    (∀ (data : List System) (i j : Nat),
      VentilationFan.mk i j ∈ async_setup_entry data ↔
        ∃ s, data.get? i = some s ∧ j < s.ventilation.length) ∧
    (∀ v0 v1 : Ventilation,
      async_setup_entry [System.mk [v0, v1]] =
        [VentilationFan.mk 0 0, VentilationFan.mk 0 1] ∧
      (VentilationFan.mk 0 1).ventilation [System.mk [v0, v1]] = some v1 ∧
      (VentilationFan.mk 0 1).async_turn_on [System.mk [v0, v1]] none =
        ⟨[⟨v1, VentilationOperationMode.TIME_CONTROLLED⟩], none⟩ ∧
      (VentilationFan.mk 0 0).async_turn_on [System.mk [v0, v1]] none =
        ⟨[⟨v0, VentilationOperationMode.TIME_CONTROLLED⟩], none⟩) :=
  ⟨length_async_setup_entry, mem_async_setup_entry,
   fun _ _ => ⟨rfl, rfl, rfl, rfl⟩⟩

/-- Witness for C8: a concrete adapter membership produced through the
theorem's characterization. -/
theorem C8_one_adapter_per_pair_witness :
    VentilationFan.mk 0 1 ∈
      async_setup_entry
        [System.mk [Ventilation.mk 0 VentilationOperationMode.OFF,
                    Ventilation.mk 1 VentilationOperationMode.NORMAL]] :=
  (C8_one_adapter_per_pair.2.1 _ 0 1).mpr ⟨_, rfl, by decide⟩

/-- Claim C9: the percentage property never silently returns a default for
a mode outside {OFF, TIME_CONTROLLED, REDUCED, NORMAL}: the scale lookup
fails (raises) for any mode not in `FAN_SPEED_OPTIONS`, and whenever
`percentage` does return a value the mode is one of the four. -/
theorem C9_percentage_no_silent_default (m : VentilationOperationMode)
    (f : VentilationFan) (data : List System) (v : Ventilation)
    (h : f.ventilation data = some v) :
    (m ∉ FAN_SPEED_OPTIONS →
      ordered_list_item_to_percentage FAN_SPEED_OPTIONS m = none) ∧
    ((f.percentage data).isSome →
      v.operation_mode_ventilation = VentilationOperationMode.OFF ∨
      v.operation_mode_ventilation = VentilationOperationMode.TIME_CONTROLLED ∨
      v.operation_mode_ventilation = VentilationOperationMode.REDUCED ∨
      v.operation_mode_ventilation = VentilationOperationMode.NORMAL) := by
  constructor
  · intro hm
    revert hm
    cases m <;> decide
  · intro _
    rcases v with ⟨i, mm⟩
    cases mm <;> simp

/-- Witness for C9: OFF is outside the speed scale and the scale lookup
yields no percentage for it. -/
theorem C9_percentage_no_silent_default_witness :
    ordered_list_item_to_percentage FAN_SPEED_OPTIONS
      VentilationOperationMode.OFF = none :=
  (C9_percentage_no_silent_default VentilationOperationMode.OFF
    (VentilationFan.mk 0 0)
    [System.mk [Ventilation.mk 0 VentilationOperationMode.OFF]]
    (Ventilation.mk 0 VentilationOperationMode.OFF) rfl).1 (by decide)

/-- Claim C10: the persisted unique id depends only on the ventilation
index, not the system index; two adapters created by setup for different
systems but the same ventilation index share the same unique id. -/
theorem C10_unique_id_collision :
    (∀ a b : VentilationFan,
      a.ventilation_index = b.ventilation_index → a.unique_id = b.unique_id) ∧
    (∀ v0 v1 : Ventilation,
      async_setup_entry [System.mk [v0], System.mk [v1]] =
        [VentilationFan.mk 0 0, VentilationFan.mk 1 0] ∧
      (VentilationFan.mk 0 0).unique_id = (VentilationFan.mk 1 0).unique_id ∧
      VentilationFan.mk 0 0 ≠ VentilationFan.mk 1 0) := by
  refine ⟨fun a b hab => ?_, fun v0 v1 => ⟨rfl, rfl, by decide⟩⟩
  unfold VentilationFan.unique_id
  rw [hab]

/-- Witness for C10 at two concrete adapters of different systems. -/
theorem C10_unique_id_collision_witness :
    (VentilationFan.mk 0 3).unique_id = (VentilationFan.mk 5 3).unique_id :=
  C10_unique_id_collision.1 (VentilationFan.mk 0 3) (VentilationFan.mk 5 3) rfl

end Mypyllant
